/-
  Verification of the cpustate-tui core against its specification.

  Shallow embedding of the kernel's scroll model (src/kernel/src/scroll.rs),
  search model (src/search/src/lib.rs), input state machine
  (src/kernel/src/input.rs), LAPIC timer calibration (src/kernel/src/lapic.rs),
  diffing ANSI renderer (src/kernel/src/ratatui_backend.rs) and the
  application event loop's state mutations (src/kernel/src/app.rs).

  Machine integers are modelled as Nat with explicit `% 2^w` where the Rust
  code can wrap (unchecked `+`, `as u32`/`as u16` casts); Rust
  `saturating_sub` is Nat subtraction, which already saturates at 0.
-/
import Mathlib

namespace CpuStateTui

/-! ## Scroll model — src/kernel/src/scroll.rs

`ScrollHints` has three `u16` fields.  `u16` values are Nats below `2^16`;
arithmetic that can wrap carries an explicit `% 65536`. -/

/-- `ScrollHints { max_offset: u16, y_offset: u16, page_height: u16 }`. -/
structure ScrollHints where
  max_offset : Nat
  y_offset : Nat
  page_height : Nat
  deriving Repr, DecidableEq

/-- `enum ScrollDirection { Up, Down, Top, Bottom, PageUp, PageDown }`. -/
inductive ScrollDirection where
  | Up
  | Down
  | Top
  | Bottom
  | PageUp
  | PageDown
  deriving Repr, DecidableEq

/-- `ScrollHints::update_from_render`: `max_offset = (n_lines as u16)
.saturating_sub(area_height)`, `page_height = area_height.saturating_sub(2)`. -/
def ScrollHints.update_from_render (s : ScrollHints) (n_lines : Nat)
    (area_height : Nat) : ScrollHints :=
  { s with
    max_offset := (n_lines % 65536) - area_height
    page_height := area_height - 2 }

/-- `ScrollHints::scroll`.  `Up`/`PageUp` use `saturating_sub` (Nat `-`);
`Down` uses `saturating_add` behind a `y_offset < max_offset` guard;
`PageDown` computes `(y_offset + page_height).min(max_offset)` with an
unchecked `u16` addition, hence the `% 65536`. -/
def ScrollHints.scroll (s : ScrollHints) (direction : ScrollDirection) :
    ScrollHints :=
  match direction with
  | .Up => { s with y_offset := s.y_offset - 1 }
  | .Down =>
      if s.y_offset < s.max_offset then
        { s with y_offset := min (s.y_offset + 1) 65535 }
      else s
  | .Top => { s with y_offset := 0 }
  | .Bottom => { s with y_offset := s.max_offset }
  | .PageUp => { s with y_offset := s.y_offset - s.page_height }
  | .PageDown =>
      { s with y_offset := min ((s.y_offset + s.page_height) % 65536) s.max_offset }

/-- `ScrollHints::scroll_to`: `y_offset = offset.min(max_offset)`. -/
def ScrollHints.scroll_to (s : ScrollHints) (offset : Nat) : ScrollHints :=
  { s with y_offset := min offset s.max_offset }

/-- One scroll-model operation: a directional scroll or a `scroll_to` jump. -/
inductive ScrollOp where
  | dir (d : ScrollDirection)
  | jump (offset : Nat)
  deriving Repr, DecidableEq

/-- Apply one `ScrollOp` to a `ScrollHints`. -/
def ScrollHints.apply (s : ScrollHints) (op : ScrollOp) : ScrollHints :=
  match op with
  | .dir d => s.scroll d
  | .jump off => s.scroll_to off

/-- Apply a sequence of scroll operations left to right. -/
def ScrollHints.applyAll (s : ScrollHints) (ops : List ScrollOp) : ScrollHints :=
  ops.foldl ScrollHints.apply s

/-! ## Search model — src/search/src/lib.rs -/

/-- `str::contains` on char lists: `needle` occurs contiguously in `hay`.
The empty needle matches everywhere, as in Rust. -/
def listContainsSub (hay needle : List Char) : Bool :=
  match hay with
  | [] => needle = ([] : List Char)
  | _ :: rest => needle.isPrefixOf hay || listContainsSub rest needle

/-- `has_uppercase`: `s.chars().any(|c| c.is_uppercase())` (our labels and
queries are ASCII, where Rust and Lean uppercase tests agree). -/
def has_uppercase (s : String) : Bool :=
  s.data.any Char.isUpper

/-- `smart_contains`: case-sensitive substring containment when the needle
has an uppercase character, otherwise both sides are lowercased first. -/
def smart_contains (haystack needle : String) : Bool :=
  if has_uppercase needle then
    listContainsSub haystack.data needle.data
  else
    listContainsSub (haystack.data.map Char.toLower) (needle.data.map Char.toLower)

/-- `find_matches`: walk the `(name, bool)` feature list with a `u16` line
counter starting at `start_line`, recording lines whose name matches. -/
def find_matches (query : String) (features : List (String × Bool))
    (start_line : Nat) : List Nat :=
  match features with
  | [] => []
  | (name, _) :: rest =>
      (if smart_contains name query then [start_line] else []) ++
        find_matches query rest ((start_line + 1) % 65536)

/-- `find_matches_strs`: same walk over bare names. -/
def find_matches_strs (query : String) (names : List String)
    (start_line : Nat) : List Nat :=
  match names with
  | [] => []
  | name :: rest =>
      (if smart_contains name query then [start_line] else []) ++
        find_matches_strs query rest ((start_line + 1) % 65536)

/-- `SearchState { matches: Vec<u16>, current_match: usize, last_query: String }`. -/
structure SearchState where
  «matches» : List Nat
  current_match : Nat
  last_query : String
  deriving Repr, DecidableEq

/-- `SearchState::next`: wrap `current_match` forward and return the new
offset; `None` and no mutation when `matches` is empty.  (Rust indexes
`matches[current_match]`, which panics out of range; `getD _ 0` totalises
that unreachable-under-the-invariant path.) -/
def SearchState.next (s : SearchState) : Option Nat × SearchState :=
  if s.matches.isEmpty then (none, s)
  else
    let c := (s.current_match + 1) % s.matches.length
    (some (s.matches.getD c 0), { s with current_match := c })

/-- `SearchState::prev`: wrap `current_match` backward and return the new
offset; `None` and no mutation when `matches` is empty. -/
def SearchState.prev (s : SearchState) : Option Nat × SearchState :=
  if s.matches.isEmpty then (none, s)
  else
    let c := if s.current_match = 0 then s.matches.length - 1
             else s.current_match - 1
    (some (s.matches.getD c 0), { s with current_match := c })

/-- `SearchState::clear`. -/
def SearchState.clear (s : SearchState) : SearchState :=
  { s with «matches» := [], current_match := 0, last_query := "" }

/-- The state component of `SearchState::next`. -/
def SearchState.nextSt (s : SearchState) : SearchState := s.next.2

/-- The state component of `SearchState::prev`. -/
def SearchState.prevSt (s : SearchState) : SearchState := s.prev.2

/-! ## Input state machine — src/kernel/src/input.rs

The `msr` cargo feature is off in this development, so the feature-gated
`m` / `'/' on the MSR pane` arms are absent, exactly as in a default build. -/

/-- `enum Pane { Cpuid, Fpu, Xsave, Timer }` (src/kernel/src/app.rs). -/
inductive Pane where
  | Cpuid
  | Fpu
  | Xsave
  | Timer
  deriving Repr, DecidableEq

/-- `enum Mode { Navigation, Search, SearchResults }` (src/kernel/src/app.rs). -/
inductive Mode where
  | Navigation
  | Search
  | SearchResults
  deriving Repr, DecidableEq

/-- `SEQUENCE_TIMEOUT_TICKS = (TARGET_TIMER_HZ / 2) as usize = 50`. -/
def SEQUENCE_TIMEOUT_TICKS : Nat := 100 / 2

/-- `enum Sequence { gg }`. -/
inductive Sequence where
  | gg
  deriving Repr, DecidableEq

/-- `enum InputEvent`.  `SearchInput` carries the raw byte. -/
inductive InputEvent where
  | Quit
  | ScrollToTop
  | ScrollToBottom
  | ScrollUp
  | ScrollDown
  | PageUp
  | PageDown
  | SelectPane (pane : Pane)
  | EnterSearchMode
  | ConfirmSearch
  | ExitSearchMode
  | SearchInput (byte : Nat)
  | SearchBackspace
  | NextMatch
  | PrevMatch
  deriving Repr, DecidableEq

/-- `struct Input { in_sequence: Option<Sequence>, in_sequence_since: usize }`. -/
structure Input where
  in_sequence : Option Sequence
  in_sequence_since : Nat
  deriving Repr, DecidableEq

/-- `Input::new()`. -/
def Input.new : Input := ⟨none, 0⟩

/-- `Input::handle_sequence`.  The current tick (`interrupts::tick_count()`)
is passed in as `now`; `delta` is `now.saturating_sub(in_sequence_since)`,
i.e. Nat subtraction.  Returns whether the sequence completed, plus the
updated chord state. -/
def Input.handle_sequence (inp : Input) (now : Nat) (seq : Sequence) :
    Bool × Input :=
  match inp.in_sequence with
  | none => (false, { in_sequence := some seq, in_sequence_since := now })
  | some stored =>
      if stored ≠ Sequence.gg then
        (false, { inp with in_sequence := none })
      else
        let delta := now - inp.in_sequence_since
        if delta > SEQUENCE_TIMEOUT_TICKS then
          (false, { inp with in_sequence_since := now })
        else
          (true, { inp with in_sequence := none })

/-- `Input::handle_byte`.  The `App` argument is read only for its mode and
active pane, passed here directly; `now` stands for `tick_count()` as read
inside `handle_sequence`. -/
def Input.handle_byte (inp : Input) (mode : Mode) (pane : Pane) (byte : Nat)
    (now : Nat) : Option InputEvent × Input :=
  match mode with
  | .Search =>
      if byte = 0x1B then (some .ExitSearchMode, inp)
      else if byte = 0x7F ∨ byte = 0x08 then (some .SearchBackspace, inp)
      else if byte = 0x0D then (some .ConfirmSearch, inp)
      else if 0x20 ≤ byte ∧ byte < 0x7F then (some (.SearchInput byte), inp)
      else (none, inp)
  | .SearchResults =>
      if byte = 0x1B ∨ byte = 0x0D then (some .ExitSearchMode, inp)
      else if byte = 110 then (some .NextMatch, inp)      -- n
      else if byte = 78 then (some .PrevMatch, inp)       -- N
      else if byte = 47 then (some .EnterSearchMode, inp) -- /
      else (none, inp)
  | .Navigation =>
      if byte = 113 then (some .Quit, inp)                         -- q
      else if byte = 47 ∧ pane = Pane.Cpuid then                   -- /
        (some .EnterSearchMode, inp)
      else if byte = 99 then (some (.SelectPane .Cpuid), inp)      -- c
      else if byte = 102 then (some (.SelectPane .Fpu), inp)       -- f
      else if byte = 120 then (some (.SelectPane .Xsave), inp)     -- x
      else if byte = 116 then (some (.SelectPane .Timer), inp)     -- t
      else if byte = 106 then (some .ScrollDown, inp)              -- j
      else if byte = 107 then (some .ScrollUp, inp)                -- k
      else if byte = 71 then (some .ScrollToBottom, inp)           -- G
      else if byte = 0x06 then (some .PageDown, inp)               -- Ctrl+F
      else if byte = 0x02 then (some .PageUp, inp)                 -- Ctrl+B
      else if byte = 103 then                                      -- g
        let r := inp.handle_sequence now Sequence.gg
        (if r.1 then some .ScrollToTop else none, r.2)
      else
        -- any other key aborts an ongoing sequence
        (none, { inp with in_sequence := none })

/-! ## Application state and event dispatch — src/kernel/src/app.rs

The `App` fields touched by UI events, plus the CPUID feature tables the
search index is built from (inert data read once at boot).  The `msr`
feature is off, matching a default build.  The search buffer holds only
printable ASCII (input.rs admits 0x20..0x7F), so Rust's byte length and
Lean's char length of it agree. -/

/-- `MIN_SEARCH_LEN = 2`. -/
def MIN_SEARCH_LEN : Nat := 2

/-- The event-relevant state of `struct App`: active pane, UI mode, search
buffer and state, the per-pane scroll hints (`scroll_hints.cpuid` and
`fpu_state.scroll`), and the CPUID feature tables used by
`perform_cpuid_search`. -/
structure App where
  pane : Pane
  mode : Mode
  search_buffer : String
  search_state : SearchState
  cpuid_hints : ScrollHints
  fpu_hints : ScrollHints
  features : List (String × Bool)
  extended_features : List (String × Bool)
  esf_supports : List (String × Bool)
  deriving Repr, DecidableEq

/-- `App::scroll`: route a scroll to the active pane's hints; the Xsave and
Timer panes have none (`_ => return`). -/
def App.scroll (a : App) (d : ScrollDirection) : App :=
  match a.pane with
  | .Cpuid => { a with cpuid_hints := a.cpuid_hints.scroll d }
  | .Fpu => { a with fpu_hints := a.fpu_hints.scroll d }
  | _ => a

/-- The match index built by `App::perform_cpuid_search`: features start at
line 5 (vendor section + features header), each later section sits past a
blank line and its own header; the `u16` line counter wraps. -/
def App.cpuid_match_index (a : App) (query : String) : List Nat :=
  let line := 5
  let m := find_matches query a.features line
  let line := ((line + a.features.length) % 65536 + 2) % 65536
  let m := m ++ find_matches query a.extended_features line
  let line := ((line + a.extended_features.length) % 65536 + 2) % 65536
  m ++ find_matches query a.esf_supports line

/-- `App::perform_cpuid_search`: record the match index, then jump
`y_offset` straight to the first match — a direct field assignment, not
`scroll_to`. -/
def App.perform_cpuid_search (a : App) (query : String) : App :=
  let m := a.cpuid_match_index query
  let a := { a with search_state := { a.search_state with «matches» := m } }
  match m.head? with
  | some first =>
      { a with cpuid_hints := { a.cpuid_hints with y_offset := first } }
  | none => a

/-- `App::perform_search`: below `MIN_SEARCH_LEN` clear the matches (the
`last_query` field keeps its old value); identical queries are skipped;
otherwise record the query, reset the match state and re-scan the active
pane (only the CPUID pane is searchable without the `msr` feature). -/
def App.perform_search (a : App) : App :=
  let query := a.search_buffer
  if query.length < MIN_SEARCH_LEN then
    { a with search_state := { a.search_state with «matches» := [] } }
  else if query = a.search_state.last_query then a
  else
    let a := { a with search_state :=
      { a.search_state with
        last_query := query
        «matches» := []
        current_match := 0 } }
    match a.pane with
    | .Cpuid => a.perform_cpuid_search query
    | _ => a

/-- `App::next_match`: advance the search state; on a returned offset,
clamp-scroll the active searchable pane to it. -/
def App.next_match (a : App) : App :=
  let r := a.search_state.next
  match r.1 with
  | none => { a with search_state := r.2 }
  | some off =>
      let a := { a with search_state := r.2 }
      match a.pane with
      | .Cpuid => { a with cpuid_hints := a.cpuid_hints.scroll_to off }
      | _ => a

/-- `App::prev_match`: retreat the search state; on a returned offset,
clamp-scroll the active searchable pane to it. -/
def App.prev_match (a : App) : App :=
  let r := a.search_state.prev
  match r.1 with
  | none => { a with search_state := r.2 }
  | some off =>
      let a := { a with search_state := r.2 }
      match a.pane with
      | .Cpuid => { a with cpuid_hints := a.cpuid_hints.scroll_to off }
      | _ => a

/-- The event dispatch of `App::run`'s main loop.  `Quit` signals the
platform and mutates no UI state.  `SearchInput` is gated on the 76-byte
buffer limit; within it the byte is pushed and the search re-run. -/
def App.applyEvent (a : App) (e : InputEvent) : App :=
  match e with
  | .Quit => a
  | .ScrollToTop => a.scroll .Top
  | .ScrollToBottom => a.scroll .Bottom
  | .PageUp => a.scroll .PageUp
  | .PageDown => a.scroll .PageDown
  | .SelectPane p => { a with pane := p }
  | .ScrollUp => a.scroll .Up
  | .ScrollDown => a.scroll .Down
  | .EnterSearchMode =>
      { a with
        mode := .Search
        search_buffer := ""
        search_state := a.search_state.clear }
  | .ConfirmSearch => { a with mode := .SearchResults }
  | .ExitSearchMode => { a with mode := .Navigation }
  | .SearchInput b =>
      if a.search_buffer.length < 76 then
        App.perform_search
          { a with search_buffer := a.search_buffer.push (Char.ofNat b) }
      else a
  | .SearchBackspace =>
      -- `String::pop` removes the final char (None-returning on empty)
      App.perform_search
        { a with search_buffer := String.mk a.search_buffer.data.dropLast }
  | .NextMatch => a.next_match
  | .PrevMatch => a.prev_match

/-- Apply a sequence of UI events left to right. -/
def App.applyEvents (a : App) (es : List InputEvent) : App :=
  es.foldl App.applyEvent a

/-- The `[current/total]` counter rendered on the bottom bar in
`SearchResults` mode: `current_match + 1` over `matches.len()`
(the `Widget for &mut App` impl). -/
def App.searchResultsCounter (a : App) : Nat × Nat :=
  (a.search_state.current_match + 1, a.search_state.matches.length)

/-- The bottom bar text by mode, from the `Widget for &mut App` impl. -/
def App.bottomBar (a : App) : String :=
  match a.mode with
  | .Search => "/" ++ a.search_buffer ++ "_"
  | .SearchResults =>
      "/" ++ a.search_buffer ++ " [" ++ toString (a.search_state.current_match + 1)
        ++ "/" ++ toString a.search_state.matches.length ++ "]"
  | .Navigation => "CPUID (c) | FPU (f) | XSAVE (x) | Timer (t) | Quit (q)"

/-! ## LAPIC timer calibration — src/kernel/src/lapic.rs

The hardware observations (the CPUID-reported TSC frequency, and the LAPIC
current-count register read after each ~10 ms one-shot measurement) enter as
parameters; the `static LAPIC_TIMER_FREQ_HZ: Option<u64>` cell is threaded
as explicit state.  `u32`/`u64` products and casts wrap, hence the explicit
moduli. -/

/-- `TARGET_TIMER_HZ = 100`. -/
def TARGET_TIMER_HZ : Nat := 100

/-- `FALLBACK_TIMER_INITIAL = 1_000_000`. -/
def FALLBACK_TIMER_INITIAL : Nat := 1000000

/-- `PIT_FREQUENCY = 1_193_182`. -/
def PIT_FREQUENCY : Nat := 1193182

/-- The process-wide `static LAPIC_TIMER_FREQ_HZ: Option<u64>`. -/
structure LapicState where
  lapic_timer_freq_hz : Option Nat
  deriving Repr, DecidableEq

/-- `Lapic::calibrate_with_tsc`: bail out with `None` if the TSC frequency
is unavailable; otherwise run the one-shot measurement from
`start_count = 0xFFFF_FFFF` down to the observed `end_count`, derive
`lapic_freq = elapsed * tsc_freq / (tsc_freq / 100)` (`u64` product wraps),
store it in the static, and return `(lapic_freq / TARGET_TIMER_HZ) as u32`
(a wrapping truncation). -/
def calibrate_with_tsc (st : LapicState) (tscFreq : Option Nat)
    (endCount : Nat) : Option Nat × LapicState :=
  match tscFreq with
  | none => (none, st)
  | some tsc =>
      let start_count : Nat := 0xFFFFFFFF
      let calibration_tsc_ticks := tsc / 100
      let elapsed_lapic_ticks := start_count - endCount
      let lapic_freq :=
        ((elapsed_lapic_ticks * tsc) % 18446744073709551616) / calibration_tsc_ticks
      (some ((lapic_freq / TARGET_TIMER_HZ) % 4294967296),
        { lapic_timer_freq_hz := some lapic_freq })

/-- `Lapic::calibrate_with_pit`: same one-shot measurement gated by PIT
channel 2, with the fixed `pit_ticks = (PIT_FREQUENCY / 100) as u16`
reference; always succeeds (the code has no `None` path). -/
def calibrate_with_pit (_st : LapicState) (endCount : Nat) :
    Option Nat × LapicState :=
  let start_count : Nat := 0xFFFFFFFF
  let pit_ticks := (PIT_FREQUENCY / 100) % 65536
  let elapsed_lapic_ticks := start_count - endCount
  let lapic_freq :=
    ((elapsed_lapic_ticks * PIT_FREQUENCY) % 18446744073709551616) / pit_ticks
  (some ((lapic_freq / TARGET_TIMER_HZ) % 4294967296),
    { lapic_timer_freq_hz := some lapic_freq })

/-- The reload-value selection in `Lapic::enable`:
`calibrate_with_tsc().or_else(|| calibrate_with_pit()).unwrap_or(FALLBACK_TIMER_INITIAL)`
applied to the two calibration outcomes. -/
def enable_reload_choice (tscRes pitRes : Option Nat) : Nat :=
  ((tscRes.orElse fun _ => pitRes).getD FALLBACK_TIMER_INITIAL)

/-- `Lapic::enable`: run the TSC calibration, fall back to the PIT
calibration, fall back to the hardcoded reload value; returns the
`initial_count` that is programmed into the timer plus the final static
state. -/
def Lapic.enable (st : LapicState) (tscFreq : Option Nat)
    (tscEnd pitEnd : Nat) : Nat × LapicState :=
  let r1 := calibrate_with_tsc st tscFreq tscEnd
  match r1.1 with
  | some reload => (reload, r1.2)
  | none =>
      let r2 := calibrate_with_pit r1.2 pitEnd
      match r2.1 with
      | some reload => (reload, r2.2)
      | none => (FALLBACK_TIMER_INITIAL, r2.2)

/-! ## Diffing ANSI renderer — src/kernel/src/ratatui_backend.rs

Cells and styles mirror the ratatui `Cell`/`Style` data the backend
consumes; the serial byte stream is modelled at escape-sequence
granularity by `AnsiOut` tokens, one per `write!` the backend performs. -/

/-- ratatui `Color`, as consumed by `push_fg`/`push_bg`. -/
inductive ColorM where
  | Reset
  | Black
  | Red
  | Green
  | Yellow
  | Blue
  | Magenta
  | Cyan
  | Gray
  | DarkGray
  | LightRed
  | LightGreen
  | LightYellow
  | LightBlue
  | LightMagenta
  | LightCyan
  | White
  | Indexed (n : Nat)
  | Rgb (r g b : Nat)
  deriving Repr, DecidableEq

/-- The modifier flags `sgr_for_style` inspects. -/
structure ModifierM where
  bold : Bool
  dim : Bool
  italic : Bool
  underlined : Bool
  reversed : Bool
  crossed_out : Bool
  deriving Repr, DecidableEq

/-- An all-clear modifier set (ratatui `Modifier::empty()`). -/
def ModifierM.empty : ModifierM := ⟨false, false, false, false, false, false⟩

/-- ratatui `Style` as the backend reads it: optional colors plus
modifiers. -/
structure StyleM where
  fg : Option ColorM
  bg : Option ColorM
  add_modifier : ModifierM
  deriving Repr, DecidableEq

/-- `Style::default()`: unset colors, empty modifiers. -/
def StyleM.default : StyleM := ⟨none, none, ModifierM.empty⟩

/-- A ratatui buffer cell: display symbol plus style. -/
structure CellM where
  symbol : String
  style : StyleM
  deriving Repr, DecidableEq

/-- `Cell::EMPTY`: a space with the default style (what `Buffer::empty`
fills the grid with). -/
def CellM.empty : CellM := ⟨" ", StyleM.default⟩

/-- `push_fg`: SGR parameters for a foreground color. -/
def push_fg (c : ColorM) : List Nat :=
  match c with
  | .Reset => []
  | .Black => [30]
  | .Red => [31]
  | .Green => [32]
  | .Yellow => [33]
  | .Blue => [34]
  | .Magenta => [35]
  | .Cyan => [36]
  | .Gray => [37]
  | .DarkGray => [90]
  | .LightRed => [91]
  | .LightGreen => [92]
  | .LightYellow => [93]
  | .LightBlue => [94]
  | .LightMagenta => [95]
  | .LightCyan => [96]
  | .White => [97]
  | .Indexed n => [38, 5, n % 256]
  | .Rgb r g b => [38, 2, r % 256, g % 256, b % 256]

/-- `push_bg`: SGR parameters for a background color. -/
def push_bg (c : ColorM) : List Nat :=
  match c with
  | .Reset => []
  | .Black => [40]
  | .Red => [41]
  | .Green => [42]
  | .Yellow => [43]
  | .Blue => [44]
  | .Magenta => [45]
  | .Cyan => [46]
  | .Gray => [47]
  | .DarkGray => [100]
  | .LightRed => [101]
  | .LightGreen => [102]
  | .LightYellow => [103]
  | .LightBlue => [104]
  | .LightMagenta => [105]
  | .LightCyan => [106]
  | .White => [107]
  | .Indexed n => [48, 5, n % 256]
  | .Rgb r g b => [48, 2, r % 256, g % 256, b % 256]

/-- The modifier attribute codes pushed by `sgr_for_style`, in its fixed
order bold, dim, italic, underlined, reversed, crossed-out. -/
def modifier_params (m : ModifierM) : List Nat :=
  (if m.bold then [1] else []) ++ (if m.dim then [2] else []) ++
    (if m.italic then [3] else []) ++ (if m.underlined then [4] else []) ++
    (if m.reversed then [7] else []) ++ (if m.crossed_out then [9] else [])

/-- `sgr_for_style`: leading `0` reset, then modifiers, then
foreground/background parameters (`fg.unwrap_or(Reset)` contributing
nothing when unset). -/
def sgr_for_style (style : StyleM) : List Nat :=
  0 :: (modifier_params style.add_modifier ++
    push_fg (style.fg.getD .Reset) ++ push_bg (style.bg.getD .Reset))

/-- One escape sequence or symbol write on the serial sink. -/
inductive AnsiOut where
  | hideCursor
  | showCursor
  | reset
  | clearHome
  | goto (x y : Nat)
  | sgr (params : List Nat)
  | sym (s : String)
  deriving Repr, DecidableEq

/-- `write_cell_symbol`: an empty symbol prints a space. -/
def write_cell_symbol (cell : CellM) : String :=
  if cell.symbol = "" then " " else cell.symbol

/-- A frame buffer: cell contents addressed by `(x, y)`. -/
def BufferM : Type := Nat → Nat → CellM

/-- `Buffer::empty`: every cell is `Cell::EMPTY`. -/
def BufferM.empty : BufferM := fun _ _ => CellM.empty

/-- The `(x, y)` visit order both painters use: row by row, left to
right. -/
def cellOrder (width height : Nat) : List (Nat × Nat) :=
  (List.range height).flatMap fun y => (List.range width).map fun x => (x, y)

/-- The per-cell body of `paint_full`: emit the style (only on change)
and the symbol. -/
def paintFullStep (next : BufferM) (acc : StyleM × List AnsiOut)
    (p : Nat × Nat) : StyleM × List AnsiOut :=
  let cell := next p.1 p.2
  if cell.style ≠ acc.1 then
    (cell.style, acc.2 ++ [.sgr (sgr_for_style cell.style),
      .sym (write_cell_symbol cell)])
  else
    (acc.1, acc.2 ++ [.sym (write_cell_symbol cell)])

/-- `paint_full`: hide cursor, clear-and-home, reset, then every row with a
leading `goto`, then reset and show cursor.  Style-run compression is the
`last_style` threading. -/
def paint_full (width height : Nat) (next : BufferM) : List AnsiOut :=
  let body := (List.range height).foldl
    (fun (acc : StyleM × List AnsiOut) y =>
      ((List.range width).map fun x => (x, y)).foldl (paintFullStep next)
        (acc.1, acc.2 ++ [.goto 0 y]))
    (StyleM.default, [])
  [.hideCursor, .clearHome, .reset] ++ body.2 ++ [.reset, .showCursor]

/-- The per-cell body of `paint_diff`: cells whose symbol or style changed
get a `goto`, a style change if needed, and the symbol. -/
def paintDiffStep (prev next : BufferM) (acc : StyleM × List AnsiOut)
    (p : Nat × Nat) : StyleM × List AnsiOut :=
  let nw := next p.1 p.2
  let od := prev p.1 p.2
  if nw.symbol ≠ od.symbol ∨ nw.style ≠ od.style then
    if nw.style ≠ acc.1 then
      (nw.style, acc.2 ++ [.goto p.1 p.2, .sgr (sgr_for_style nw.style),
        .sym (write_cell_symbol nw)])
    else
      (acc.1, acc.2 ++ [.goto p.1 p.2, .sym (write_cell_symbol nw)])
  else
    acc

/-- `paint_diff`: hide cursor, reset, emit only the differing cells, reset,
show cursor. -/
def paint_diff (width height : Nat) (prev next : BufferM) : List AnsiOut :=
  let body := (cellOrder width height).foldl (paintDiffStep prev next)
    (StyleM.default, [])
  [.hideCursor, .reset] ++ body.2 ++ [.reset, .showCursor]

/-- `SerialAnsiBackend` state: fixed area, previous frame, full-repaint
flag (the tracked cursor position plays no part in `draw`). -/
structure SerialAnsiBackend where
  width : Nat
  height : Nat
  prev : BufferM
  force_full_repaint : Bool

/-- `SerialAnsiBackend::new`: empty previous frame, full repaint forced. -/
def SerialAnsiBackend.new (width height : Nat) : SerialAnsiBackend :=
  ⟨width, height, BufferM.empty, true⟩

/-- The update-application loop at the top of `draw`: clone `prev`, then
write each in-bounds `(x, y, cell)` update into it. -/
def applyUpdates (b : SerialAnsiBackend)
    (content : List (Nat × Nat × CellM)) : BufferM :=
  content.foldl
    (fun buf u =>
      if u.1 < b.width ∧ u.2.1 < b.height then
        fun x y => if x = u.1 ∧ y = u.2.1 then u.2.2 else buf x y
      else buf)
    b.prev

/-- `Backend::draw`: build `next` from the updates, paint full or diff
according to the flag, clear the flag, and commit `next` as the new
previous frame.  Returns the emitted byte stream and the new backend
state. -/
def SerialAnsiBackend.draw (b : SerialAnsiBackend)
    (content : List (Nat × Nat × CellM)) : List AnsiOut × SerialAnsiBackend :=
  let next := applyUpdates b content
  let out :=
    if b.force_full_repaint then paint_full b.width b.height next
    else paint_diff b.width b.height b.prev next
  (out, { b with prev := next, force_full_repaint := false })

/-! ## Helper lemmas -/

theorem scroll_preserves_bound (s : ScrollHints) (d : ScrollDirection)
    (h : s.y_offset ≤ s.max_offset) :
    (s.scroll d).y_offset ≤ (s.scroll d).max_offset := by
  cases d with
  | Up => exact le_trans (Nat.sub_le _ _) h
  | Down =>
      simp only [ScrollHints.scroll]
      split
      · next hlt =>
          show min (s.y_offset + 1) 65535 ≤ s.max_offset
          omega
      · exact h
  | Top => exact Nat.zero_le _
  | Bottom => exact le_refl _
  | PageUp => exact le_trans (Nat.sub_le _ _) h
  | PageDown => exact min_le_right _ _

theorem scroll_to_preserves_bound (s : ScrollHints) (off : Nat) :
    (s.scroll_to off).y_offset ≤ (s.scroll_to off).max_offset :=
  min_le_right _ _

theorem scroll_op_preserves_bound (s : ScrollHints) (op : ScrollOp)
    (h : s.y_offset ≤ s.max_offset) :
    (s.apply op).y_offset ≤ (s.apply op).max_offset := by
  cases op with
  | dir d => exact scroll_preserves_bound s d h
  | jump off => exact scroll_to_preserves_bound s off

theorem scroll_seq_preserves_bound (s : ScrollHints) (ops : List ScrollOp)
    (h : s.y_offset ≤ s.max_offset) :
    (s.applyAll ops).y_offset ≤ (s.applyAll ops).max_offset := by
  induction ops generalizing s with
  | nil => exact h
  | cons op rest ih =>
      exact ih (s.apply op) (scroll_op_preserves_bound s op h)

theorem nextSt_matches (s : SearchState) : s.nextSt.matches = s.matches := by
  unfold SearchState.nextSt SearchState.next
  split <;> rfl

theorem prevSt_matches (s : SearchState) : s.prevSt.matches = s.matches := by
  unfold SearchState.prevSt SearchState.prev
  split <;> rfl

theorem nextSt_current (s : SearchState) (h : ¬ s.matches.isEmpty) :
    s.nextSt.current_match = (s.current_match + 1) % s.matches.length := by
  unfold SearchState.nextSt SearchState.next
  simp [h]

theorem prevSt_current (s : SearchState) (h : ¬ s.matches.isEmpty)
    (hc : s.current_match < s.matches.length) :
    s.prevSt.current_match =
      (s.current_match + (s.matches.length - 1)) % s.matches.length := by
  unfold SearchState.prevSt SearchState.prev
  have hlen : 0 < s.matches.length := by
    cases hm : s.matches with
    | nil => simp [List.isEmpty, hm] at h
    | cons a l => simp [hm]
  simp only [h, if_neg, ite_false, Bool.false_eq_true, not_false_eq_true]
  split
  · next h0 =>
      simp [h0, Nat.mod_eq_of_lt (Nat.sub_lt hlen Nat.one_pos)]
  · next h0 =>
      have h1 : s.current_match + (s.matches.length - 1) =
          (s.current_match - 1) + s.matches.length := by omega
      rw [h1, Nat.add_mod_right, Nat.mod_eq_of_lt (by omega)]

theorem nextSt_iterate (s : SearchState) (n : Nat)
    (hne : ¬ s.matches.isEmpty) (hc : s.current_match < s.matches.length) :
    (SearchState.nextSt^[n] s).matches = s.matches ∧
      (SearchState.nextSt^[n] s).current_match =
        (s.current_match + n) % s.matches.length := by
  induction n generalizing s with
  | zero => simpa using (Nat.mod_eq_of_lt hc).symm
  | succ n ih =>
      have hlen : 0 < s.matches.length := by
        cases hm : s.matches with
        | nil => simp [List.isEmpty, hm] at hne
        | cons a l => simp [hm]
      have hne' : ¬ (s.nextSt).matches.isEmpty := by
        rw [nextSt_matches]; exact hne
      have hc' : (s.nextSt).current_match < (s.nextSt).matches.length := by
        rw [nextSt_matches, nextSt_current s hne]
        exact Nat.mod_lt _ hlen
      rw [Function.iterate_succ_apply]
      obtain ⟨hm, hcur⟩ := ih s.nextSt hne' hc'
      refine ⟨by rw [hm, nextSt_matches], ?_⟩
      rw [hcur, nextSt_matches, nextSt_current s hne, Nat.mod_add_mod]
      congr 1
      omega

theorem prevSt_iterate (s : SearchState) (n : Nat)
    (hne : ¬ s.matches.isEmpty) (hc : s.current_match < s.matches.length) :
    (SearchState.prevSt^[n] s).matches = s.matches ∧
      (SearchState.prevSt^[n] s).current_match =
        (s.current_match + n * (s.matches.length - 1)) % s.matches.length := by
  induction n generalizing s with
  | zero => simpa using (Nat.mod_eq_of_lt hc).symm
  | succ n ih =>
      have hlen : 0 < s.matches.length := by
        cases hm : s.matches with
        | nil => simp [List.isEmpty, hm] at hne
        | cons a l => simp [hm]
      have hne' : ¬ (s.prevSt).matches.isEmpty := by
        rw [prevSt_matches]; exact hne
      have hc' : (s.prevSt).current_match < (s.prevSt).matches.length := by
        rw [prevSt_matches, prevSt_current s hne hc]
        exact Nat.mod_lt _ hlen
      rw [Function.iterate_succ_apply]
      obtain ⟨hm, hcur⟩ := ih s.prevSt hne' hc'
      refine ⟨by rw [hm, prevSt_matches], ?_⟩
      rw [hcur, prevSt_matches, prevSt_current s hne hc, Nat.mod_add_mod]
      congr 1
      ring

/-- `App::scroll` never touches the search buffer. -/
theorem scroll_search_buffer (a : App) (d : ScrollDirection) :
    (a.scroll d).search_buffer = a.search_buffer := by
  unfold App.scroll
  split <;> rfl

/-- `App::perform_cpuid_search` never touches the search buffer. -/
theorem perform_cpuid_search_buffer (a : App) (q : String) :
    (a.perform_cpuid_search q).search_buffer = a.search_buffer := by
  cases h : (a.cpuid_match_index q).head? <;>
    simp [App.perform_cpuid_search, h]

/-- `App::perform_search` never touches the search buffer. -/
theorem perform_search_buffer (a : App) :
    (a.perform_search).search_buffer = a.search_buffer := by
  by_cases h1 : a.search_buffer.length < MIN_SEARCH_LEN
  · simp [App.perform_search, h1]
  · by_cases h2 : a.search_buffer = a.search_state.last_query
    · simp only [App.perform_search, if_neg h1, if_pos h2]
    · cases h3 : a.pane <;>
        simp [App.perform_search, h1, h2, h3, perform_cpuid_search_buffer]

/-- `App::next_match` never touches the search buffer. -/
theorem next_match_buffer (a : App) :
    (a.next_match).search_buffer = a.search_buffer := by
  cases h1 : (a.search_state.next).1 <;> cases h2 : a.pane <;>
    simp [App.next_match, h1, h2]

/-- `App::prev_match` never touches the search buffer. -/
theorem prev_match_buffer (a : App) :
    (a.prev_match).search_buffer = a.search_buffer := by
  cases h1 : (a.search_state.prev).1 <;> cases h2 : a.pane <;>
    simp [App.prev_match, h1, h2]

/-! ## Claim C1 -/

/-- C1 counterexample: the state `⟨max_offset := 65535, y_offset := 65535,
page_height := 1⟩` satisfies `y_offset ≤ max_offset`, yet `PageDown` — an
unchecked `u16` addition — wraps to `y_offset = 0` instead of clamping at
`max_offset`, refuting "scrolling Down or PageDown at or past max_offset
clamps y_offset to max_offset". -/
theorem c1_pagedown_wrap_counterexample :
    (ScrollHints.mk 65535 65535 1).y_offset ≤
        (ScrollHints.mk 65535 65535 1).max_offset ∧
      (ScrollHints.scroll (ScrollHints.mk 65535 65535 1) .PageDown).y_offset = 0 ∧
      (ScrollHints.scroll (ScrollHints.mk 65535 65535 1) .PageDown).y_offset ≠
        (ScrollHints.mk 65535 65535 1).max_offset := by
  decide

/-- C1 (amended): from any state with `y_offset ≤ max_offset`, the
invariant `0 ≤ y_offset ≤ max_offset` holds after every single scroll
operation and `scroll_to` call, and hence after any sequence of them;
`Up` at 0 stays 0, `Down` at `max_offset` stays at `max_offset`, and
`PageDown` clamps to `max_offset` whenever the `u16` addition
`y_offset + page_height` does not overflow (at the `u16` extreme it wraps
instead of clamping). -/
theorem c1_scroll_invariant :
    (∀ (s : ScrollHints) (op : ScrollOp), s.y_offset ≤ s.max_offset →
        (s.apply op).y_offset ≤ (s.apply op).max_offset) ∧
    (∀ (s : ScrollHints) (ops : List ScrollOp), s.y_offset ≤ s.max_offset →
        (s.applyAll ops).y_offset ≤ (s.applyAll ops).max_offset) ∧
    (∀ s : ScrollHints, s.y_offset = 0 → (s.scroll .Up).y_offset = 0) ∧
    (∀ s : ScrollHints, s.y_offset = s.max_offset →
        (s.scroll .Down).y_offset = s.max_offset) ∧
    (∀ s : ScrollHints, s.y_offset + s.page_height < 65536 →
        s.max_offset ≤ s.y_offset + s.page_height →
        (s.scroll .PageDown).y_offset = s.max_offset) := by
  refine ⟨scroll_op_preserves_bound, scroll_seq_preserves_bound, ?_, ?_, ?_⟩
  · intro s h
    simp [ScrollHints.scroll, h]
  · intro s h
    simp [ScrollHints.scroll, h]
  · intro s hno hmax
    simp only [ScrollHints.scroll]
    rw [Nat.mod_eq_of_lt hno]
    omega

/-- C1 witness: the amended invariant applied to the concrete state
`⟨30, 5, 18⟩` and a concrete operation sequence, plus the three boundary
facts at concrete states. -/
theorem c1_scroll_invariant_witness :
    ((ScrollHints.mk 30 5 18).applyAll
        [.dir .Down, .dir .PageDown, .jump 100, .dir .Up]).y_offset ≤
      ((ScrollHints.mk 30 5 18).applyAll
        [.dir .Down, .dir .PageDown, .jump 100, .dir .Up]).max_offset ∧
    (ScrollHints.scroll (ScrollHints.mk 30 0 18) .Up).y_offset = 0 ∧
    (ScrollHints.scroll (ScrollHints.mk 30 30 18) .Down).y_offset = 30 ∧
    (ScrollHints.scroll (ScrollHints.mk 30 20 18) .PageDown).y_offset = 30 :=
  ⟨c1_scroll_invariant.2.1 (ScrollHints.mk 30 5 18) _ (by decide),
   c1_scroll_invariant.2.2.1 (ScrollHints.mk 30 0 18) (by decide),
   c1_scroll_invariant.2.2.2.1 (ScrollHints.mk 30 30 18) (by decide),
   c1_scroll_invariant.2.2.2.2 (ScrollHints.mk 30 20 18) (by decide) (by decide)⟩

/-! ## Claim C6 -/

/-- C6: on any `SearchState` with non-empty matches (and `current_match`
within bounds, the documented invariant), `len(matches)` applications of
`next` return `current_match` to its original value, and likewise for
`prev`; on empty matches both return no offset and leave the state
unchanged. -/
theorem c6_match_navigation_laws :
    (∀ s : SearchState, s.matches ≠ [] → s.current_match < s.matches.length →
        (SearchState.nextSt^[s.matches.length] s).current_match = s.current_match ∧
        (SearchState.nextSt^[s.matches.length] s).matches = s.matches) ∧
    (∀ s : SearchState, s.matches ≠ [] → s.current_match < s.matches.length →
        (SearchState.prevSt^[s.matches.length] s).current_match = s.current_match ∧
        (SearchState.prevSt^[s.matches.length] s).matches = s.matches) ∧
    (∀ s : SearchState, s.matches = [] →
        s.next = (none, s) ∧ s.prev = (none, s)) := by
  refine ⟨?_, ?_, ?_⟩
  · intro s hne hc
    have hne' : ¬ s.matches.isEmpty := by
      cases hm : s.matches with
      | nil => exact absurd hm hne
      | cons a l => simp
    obtain ⟨hm, hcur⟩ := nextSt_iterate s s.matches.length hne' hc
    exact ⟨by rw [hcur, Nat.add_mod_right, Nat.mod_eq_of_lt hc], hm⟩
  · intro s hne hc
    have hne' : ¬ s.matches.isEmpty := by
      cases hm : s.matches with
      | nil => exact absurd hm hne
      | cons a l => simp
    obtain ⟨hm, hcur⟩ := prevSt_iterate s s.matches.length hne' hc
    exact ⟨by rw [hcur, Nat.add_mul_mod_self_left, Nat.mod_eq_of_lt hc], hm⟩
  · intro s h
    constructor <;> simp [SearchState.next, SearchState.prev, h]

/-- C6 witness: the wraparound laws at `matches = [5, 10, 15]`,
`current_match = 0`, and the empty-matches behaviour at the default
state. -/
theorem c6_match_navigation_laws_witness :
    ((SearchState.nextSt^[3] (SearchState.mk [5, 10, 15] 0 "")).current_match = 0 ∧
      (SearchState.nextSt^[3] (SearchState.mk [5, 10, 15] 0 "")).matches
        = [5, 10, 15]) ∧
    ((SearchState.prevSt^[3] (SearchState.mk [5, 10, 15] 0 "")).current_match = 0 ∧
      (SearchState.prevSt^[3] (SearchState.mk [5, 10, 15] 0 "")).matches
        = [5, 10, 15]) ∧
    ((SearchState.mk [] 0 "").next = (none, SearchState.mk [] 0 "") ∧
      (SearchState.mk [] 0 "").prev = (none, SearchState.mk [] 0 "")) :=
  ⟨c6_match_navigation_laws.1 (SearchState.mk [5, 10, 15] 0 "") (by decide)
      (by decide),
   c6_match_navigation_laws.2.1 (SearchState.mk [5, 10, 15] 0 "") (by decide)
      (by decide),
   c6_match_navigation_laws.2.2 (SearchState.mk [] 0 "") rfl⟩

/-! ## Claim C3 -/

/-- C3 counterexample: with a pending `gg` chord, the mapped byte `j`
(106) does NOT clear the chord state — so the sequence `g`, `j`, `g` all
at tick 0 still emits the scroll-to-top chord event on the final `g`,
refuting "every byte other than g clears pending chord state
unconditionally". -/
theorem c3_mapped_byte_keeps_chord_counterexample :
    ((Input.new.handle_byte .Navigation .Cpuid 103 0).2.handle_byte
        .Navigation .Cpuid 106 0).1 = some InputEvent.ScrollDown ∧
    (((Input.new.handle_byte .Navigation .Cpuid 103 0).2.handle_byte
        .Navigation .Cpuid 106 0).2.in_sequence = some Sequence.gg) ∧
    ((((Input.new.handle_byte .Navigation .Cpuid 103 0).2.handle_byte
        .Navigation .Cpuid 106 0).2.handle_byte .Navigation .Cpuid 103 0).1
      = some InputEvent.ScrollToTop) := by
  decide

/-- C3 (amended): in Navigation mode, a byte clears the pending chord
state unconditionally if and only if it is unmapped — i.e. not `q`, not
`/`-on-the-CPUID-pane, not a pane selector, not a scroll key, and not the
chord byte `g`; every byte mapped to an event (q, slash on the CPUID pane, c, f, x, t,
j, k, G, Ctrl+F, Ctrl+B) leaves the chord state — pending or not —
entirely intact, `j` for instance returning its scroll event with the
`Input` unchanged. -/
theorem c3_unmapped_byte_clears_chord :
    (∀ (inp : Input) (pane : Pane) (byte now : Nat),
        byte ≠ 113 → ¬(byte = 47 ∧ pane = Pane.Cpuid) → byte ≠ 99 →
        byte ≠ 102 → byte ≠ 120 → byte ≠ 116 → byte ≠ 106 → byte ≠ 107 →
        byte ≠ 71 → byte ≠ 6 → byte ≠ 2 → byte ≠ 103 →
        inp.handle_byte .Navigation pane byte now =
          (none, { inp with in_sequence := none })) ∧
    (∀ (inp : Input) (pane : Pane) (byte now : Nat),
        byte = 113 ∨ (byte = 47 ∧ pane = Pane.Cpuid) ∨ byte = 99 ∨
          byte = 102 ∨ byte = 120 ∨ byte = 116 ∨ byte = 106 ∨ byte = 107 ∨
          byte = 71 ∨ byte = 6 ∨ byte = 2 →
        (inp.handle_byte .Navigation pane byte now).2 = inp) ∧
    (∀ (inp : Input) (pane : Pane) (now : Nat),
        inp.handle_byte .Navigation pane 106 now =
          (some InputEvent.ScrollDown, inp)) := by
  refine ⟨?_, ?_, ?_⟩
  · intro inp pane byte now h1 h2 h3 h4 h5 h6 h7 h8 h9 h10 h11 h12
    simp [Input.handle_byte, h1, h2, h3, h4, h5, h6, h7, h8, h9, h10, h11, h12]
  · intro inp pane byte now hmap
    rcases hmap with h | h | h | h | h | h | h | h | h | h | h
    · subst h; simp [Input.handle_byte]
    · obtain ⟨hb, hp⟩ := h
      subst hb; subst hp
      simp [Input.handle_byte]
    · subst h; simp [Input.handle_byte]
    · subst h; simp [Input.handle_byte]
    · subst h; simp [Input.handle_byte]
    · subst h; simp [Input.handle_byte]
    · subst h; simp [Input.handle_byte]
    · subst h; simp [Input.handle_byte]
    · subst h; simp [Input.handle_byte]
    · subst h; simp [Input.handle_byte]
    · subst h; simp [Input.handle_byte]
  · intro inp pane now
    simp [Input.handle_byte]

/-- C3 witness: the unmapped byte `z` (122) clears a pending chord, while
the mapped bytes slash-on-CPUID (47) and `j` (106) preserve it, at a
concrete chord state. -/
theorem c3_unmapped_byte_clears_chord_witness :
    (Input.handle_byte (Input.mk (some .gg) 7) .Navigation .Fpu 122 9 =
      (none, Input.mk none 7)) ∧
    ((Input.handle_byte (Input.mk (some .gg) 7) .Navigation .Cpuid 47 9).2 =
      Input.mk (some .gg) 7) ∧
    (Input.handle_byte (Input.mk (some .gg) 7) .Navigation .Fpu 106 9 =
      (some InputEvent.ScrollDown, Input.mk (some .gg) 7)) :=
  ⟨c3_unmapped_byte_clears_chord.1 (Input.mk (some .gg) 7) .Fpu 122 9
      (by decide) (by decide) (by decide) (by decide) (by decide) (by decide)
      (by decide) (by decide) (by decide) (by decide) (by decide) (by decide),
   c3_unmapped_byte_clears_chord.2.1 (Input.mk (some .gg) 7) .Cpuid 47 9
      (Or.inr (Or.inl (by decide))),
   c3_unmapped_byte_clears_chord.2.2 (Input.mk (some .gg) 7) .Fpu 9⟩

/-! ## Claim C4 -/

/-- C4: the `gg` chord protocol in Navigation mode — a first `g` with no
pending chord records the chord at the current tick and emits nothing; a
second `g` whose elapsed ticks are within `SEQUENCE_TIMEOUT_TICKS` clears
the chord and emits the scroll-to-top event; a second `g` past the timeout
emits nothing and restarts the pending chord at the current tick. -/
theorem c4_gg_chord_protocol :
    (∀ (inp : Input) (pane : Pane) (now : Nat), inp.in_sequence = none →
        inp.handle_byte .Navigation pane 103 now =
          (none, Input.mk (some Sequence.gg) now)) ∧
    (∀ (inp : Input) (pane : Pane) (now : Nat),
        inp.in_sequence = some Sequence.gg →
        now - inp.in_sequence_since ≤ SEQUENCE_TIMEOUT_TICKS →
        inp.handle_byte .Navigation pane 103 now =
          (some InputEvent.ScrollToTop, { inp with in_sequence := none })) ∧
    (∀ (inp : Input) (pane : Pane) (now : Nat),
        inp.in_sequence = some Sequence.gg →
        now - inp.in_sequence_since > SEQUENCE_TIMEOUT_TICKS →
        inp.handle_byte .Navigation pane 103 now =
          (none, { inp with in_sequence_since := now })) := by
  refine ⟨?_, ?_, ?_⟩
  · intro inp pane now h
    simp [Input.handle_byte, Input.handle_sequence, h]
  · intro inp pane now h hd
    simp [Input.handle_byte, Input.handle_sequence, h, Nat.not_lt.mpr hd]
  · intro inp pane now h hd
    simp [Input.handle_byte, Input.handle_sequence, h, hd]

/-- C4 witness: a fresh press at tick 3 records the chord; a second press
at tick 40 (within the 50-tick window) emits scroll-to-top once; a second
press at tick 99 (past the window) restarts the chord instead. -/
theorem c4_gg_chord_protocol_witness :
    (Input.handle_byte (Input.mk none 0) .Navigation .Timer 103 3 =
      (none, Input.mk (some Sequence.gg) 3)) ∧
    (Input.handle_byte (Input.mk (some .gg) 3) .Navigation .Timer 103 40 =
      (some InputEvent.ScrollToTop, Input.mk none 3)) ∧
    (Input.handle_byte (Input.mk (some .gg) 3) .Navigation .Timer 103 99 =
      (none, Input.mk (some Sequence.gg) 99)) :=
  ⟨c4_gg_chord_protocol.1 (Input.mk none 0) .Timer 3 rfl,
   c4_gg_chord_protocol.2.1 (Input.mk (some .gg) 3) .Timer 40 rfl (by decide),
   c4_gg_chord_protocol.2.2 (Input.mk (some .gg) 3) .Timer 99 rfl (by decide)⟩

/-! ## Claim C10 -/

/-- C10: the search buffer never exceeds 76 characters — any event
sequence from a state within the limit stays within it — and a
`SearchInput` event arriving with the buffer already at 76 characters is
dropped with the entire `App` state unchanged. -/
theorem c10_search_buffer_limit :
    (∀ (a : App) (es : List InputEvent), a.search_buffer.length ≤ 76 →
        (a.applyEvents es).search_buffer.length ≤ 76) ∧
    (∀ (a : App) (b : Nat), a.search_buffer.length = 76 →
        a.applyEvent (.SearchInput b) = a) := by
  have hstep : ∀ (a : App) (e : InputEvent), a.search_buffer.length ≤ 76 →
      (a.applyEvent e).search_buffer.length ≤ 76 := by
    intro a e h
    cases e with
    | Quit => exact h
    | ScrollToTop => rw [show (a.applyEvent .ScrollToTop) = a.scroll .Top from rfl,
        scroll_search_buffer]; exact h
    | ScrollToBottom => rw [show (a.applyEvent .ScrollToBottom) = a.scroll .Bottom
        from rfl, scroll_search_buffer]; exact h
    | PageUp => rw [show (a.applyEvent .PageUp) = a.scroll .PageUp from rfl,
        scroll_search_buffer]; exact h
    | PageDown => rw [show (a.applyEvent .PageDown) = a.scroll .PageDown from rfl,
        scroll_search_buffer]; exact h
    | SelectPane p => exact h
    | ScrollUp => rw [show (a.applyEvent .ScrollUp) = a.scroll .Up from rfl,
        scroll_search_buffer]; exact h
    | ScrollDown => rw [show (a.applyEvent .ScrollDown) = a.scroll .Down from rfl,
        scroll_search_buffer]; exact h
    | EnterSearchMode => simp [App.applyEvent]
    | ConfirmSearch => exact h
    | ExitSearchMode => exact h
    | SearchInput b =>
        simp only [App.applyEvent]
        split
        · next hlt =>
            rw [perform_search_buffer]
            simp only [String.length_push]
            omega
        · exact h
    | SearchBackspace =>
        simp only [App.applyEvent]
        rw [perform_search_buffer]
        have h2 : a.search_buffer.data.length ≤ 76 := h
        simp only [String.length_mk, List.length_dropLast]
        omega
    | NextMatch => rw [show (a.applyEvent .NextMatch) = a.next_match from rfl,
        next_match_buffer]; exact h
    | PrevMatch => rw [show (a.applyEvent .PrevMatch) = a.prev_match from rfl,
        prev_match_buffer]; exact h
  refine ⟨?_, ?_⟩
  · intro a es h
    induction es generalizing a with
    | nil => exact h
    | cons e rest ih => exact ih (a.applyEvent e) (hstep a e h)
  · intro a b h
    simp [App.applyEvent, h]

/-- C10 witness: from a 76-character buffer, a further `SearchInput` byte
leaves the state untouched and any event sequence keeps the buffer within
the limit. -/
theorem c10_search_buffer_limit_witness :
    ((App.mk .Cpuid .Search (String.mk (List.replicate 76 (Char.ofNat 97)))
        (SearchState.mk [] 0 "") (ScrollHints.mk 0 0 0) (ScrollHints.mk 0 0 0)
        [] [] []).applyEvents
          [.SearchInput 120, .SearchBackspace]).search_buffer.length ≤ 76 ∧
    (App.mk .Cpuid .Search (String.mk (List.replicate 76 (Char.ofNat 97)))
        (SearchState.mk [] 0 "") (ScrollHints.mk 0 0 0) (ScrollHints.mk 0 0 0)
        [] [] []).applyEvent (.SearchInput 120) =
      App.mk .Cpuid .Search (String.mk (List.replicate 76 (Char.ofNat 97)))
        (SearchState.mk [] 0 "") (ScrollHints.mk 0 0 0) (ScrollHints.mk 0 0 0)
        [] [] [] :=
  ⟨c10_search_buffer_limit.1 _ [.SearchInput 120, .SearchBackspace] (by decide),
   c10_search_buffer_limit.2 _ 120 (by decide)⟩

/-! ## Claim C5 -/

/-- C5 code bug: typing `av` (with the feature `avx` present) finds match
line 5, but after backspacing below the minimum length — which clears the
matches yet leaves `last_query = "av"` in place — retyping `v` restores
the query `av` and is skipped as "unchanged", leaving the match list
empty even though a re-scan of the same state for `av` yields `[5]`. -/
theorem c5_retyped_query_loses_matches :
    (((App.mk .Cpuid .Navigation "" (SearchState.mk [] 0 "")
          (ScrollHints.mk 40 0 10) (ScrollHints.mk 0 0 0)
          [("avx", true), ("sse", true)] [] []).applyEvents
        [.EnterSearchMode, .SearchInput 97, .SearchInput 118]).search_state.matches
      = [5]) ∧
    (((App.mk .Cpuid .Navigation "" (SearchState.mk [] 0 "")
          (ScrollHints.mk 40 0 10) (ScrollHints.mk 0 0 0)
          [("avx", true), ("sse", true)] [] []).applyEvents
        [.EnterSearchMode, .SearchInput 97, .SearchInput 118, .SearchBackspace,
          .SearchInput 118]).search_buffer = "av") ∧
    (((App.mk .Cpuid .Navigation "" (SearchState.mk [] 0 "")
          (ScrollHints.mk 40 0 10) (ScrollHints.mk 0 0 0)
          [("avx", true), ("sse", true)] [] []).applyEvents
        [.EnterSearchMode, .SearchInput 97, .SearchInput 118, .SearchBackspace,
          .SearchInput 118]).search_state.matches = []) ∧
    (((App.mk .Cpuid .Navigation "" (SearchState.mk [] 0 "")
          (ScrollHints.mk 40 0 10) (ScrollHints.mk 0 0 0)
          [("avx", true), ("sse", true)] [] []).applyEvents
        [.EnterSearchMode, .SearchInput 97, .SearchInput 118, .SearchBackspace,
          .SearchInput 118]).cpuid_match_index "av" = [5]) := by
  decide

/-! ## Claim C2 -/

/-- C2 counterexample: with the feature list `[("avx", true)]`, query
`av`, an empty last query and `max_offset = 0`, `perform_search` records
the match at line 5 and sets `y_offset = 5` directly — not
`min(5, max_offset) = 0` as the claim's `scroll_to`-clamping asserts. -/
theorem c2_unclamped_jump_counterexample :
    ((App.mk .Cpuid .Search "av" (SearchState.mk [] 0 "")
        (ScrollHints.mk 0 0 0) (ScrollHints.mk 0 0 0)
        [("avx", true)] [] []).perform_search).search_state.matches = [5] ∧
    ((App.mk .Cpuid .Search "av" (SearchState.mk [] 0 "")
        (ScrollHints.mk 0 0 0) (ScrollHints.mk 0 0 0)
        [("avx", true)] [] []).perform_search).cpuid_hints.y_offset = 5 ∧
    ((App.mk .Cpuid .Search "av" (SearchState.mk [] 0 "")
        (ScrollHints.mk 0 0 0) (ScrollHints.mk 0 0 0)
        [("avx", true)] [] []).perform_search).cpuid_hints.y_offset ≠
      min 5 (App.mk .Cpuid .Search "av" (SearchState.mk [] 0 "")
        (ScrollHints.mk 0 0 0) (ScrollHints.mk 0 0 0)
        [("avx", true)] [] []).cpuid_hints.max_offset := by
  decide

/-- C2 (amended): on the CPUID pane, a query of at least the minimum
length that differs from the last query resets `current_match` to 0,
records the full match index, and sets the pane's `y_offset` directly to
the first match's line offset — with no clamping to `max_offset`. -/
theorem c2_search_jumps_to_first_match (a : App) (h1 : a.pane = Pane.Cpuid)
    (h2 : ¬ a.search_buffer.length < MIN_SEARCH_LEN)
    (h3 : a.search_buffer ≠ a.search_state.last_query)
    (first : Nat)
    (h4 : (a.cpuid_match_index a.search_buffer).head? = some first) :
    (a.perform_search).search_state.current_match = 0 ∧
    (a.perform_search).search_state.matches =
      a.cpuid_match_index a.search_buffer ∧
    (a.perform_search).cpuid_hints.y_offset = first := by
  obtain ⟨p, mo, buf, ss, ch, fh, f, ef, esf⟩ := a
  simp only at h1 h2 h3 h4
  subst h1
  simp only [App.perform_search, if_neg h2, if_neg h3, App.perform_cpuid_search]
  simp only [App.cpuid_match_index] at h4 ⊢
  rw [h4]
  exact ⟨rfl, rfl, rfl⟩

/-- C2 witness: the amended statement applied to a concrete CPUID-pane
state whose query `av` has its first match at line 5. -/
theorem c2_search_jumps_to_first_match_witness :
    ((App.mk .Cpuid .Search "av" (SearchState.mk [7] 3 "ss")
        (ScrollHints.mk 9 2 4) (ScrollHints.mk 0 0 0)
        [("avx", true)] [] []).perform_search).search_state.current_match = 0 ∧
    ((App.mk .Cpuid .Search "av" (SearchState.mk [7] 3 "ss")
        (ScrollHints.mk 9 2 4) (ScrollHints.mk 0 0 0)
        [("avx", true)] [] []).perform_search).search_state.matches =
      (App.mk .Cpuid .Search "av" (SearchState.mk [7] 3 "ss")
        (ScrollHints.mk 9 2 4) (ScrollHints.mk 0 0 0)
        [("avx", true)] [] []).cpuid_match_index "av" ∧
    ((App.mk .Cpuid .Search "av" (SearchState.mk [7] 3 "ss")
        (ScrollHints.mk 9 2 4) (ScrollHints.mk 0 0 0)
        [("avx", true)] [] []).perform_search).cpuid_hints.y_offset = 5 :=
  c2_search_jumps_to_first_match
    (App.mk .Cpuid .Search "av" (SearchState.mk [7] 3 "ss")
      (ScrollHints.mk 9 2 4) (ScrollHints.mk 0 0 0) [("avx", true)] [] [])
    rfl (by decide) (by decide) 5 (by decide)

/-! ## Claim C7 -/

/-- C7 counterexample: in SearchResults mode with an empty match list the
rendered counter is `current_match + 1` over the total, i.e. `[1/0]`, not
the claimed `0/0`. -/
theorem c7_empty_counter_counterexample :
    (App.mk .Cpuid .SearchResults "zz" (SearchState.mk [] 0 "zz")
        (ScrollHints.mk 0 0 0) (ScrollHints.mk 0 0 0) [] [] []).searchResultsCounter
      = (1, 0) ∧
    (App.mk .Cpuid .SearchResults "zz" (SearchState.mk [] 0 "zz")
        (ScrollHints.mk 0 0 0) (ScrollHints.mk 0 0 0) [] [] []).searchResultsCounter
      ≠ (0, 0) ∧
    (App.mk .Cpuid .SearchResults "zz" (SearchState.mk [] 0 "zz")
        (ScrollHints.mk 0 0 0) (ScrollHints.mk 0 0 0) [] [] []).bottomBar
      = "/zz [1/0]" := by
  decide

/-- C7 (amended): in SearchResults mode with an empty match list (where
`current_match` is 0), the bottom-bar counter shows a fresh total of 0 but
renders the current match one-based, so the text reads `[1/0]` rather
than `[0/0]`. -/
theorem c7_empty_matches_counter (a : App) (h1 : a.mode = Mode.SearchResults)
    (h2 : a.search_state.matches = []) (h3 : a.search_state.current_match = 0) :
    a.searchResultsCounter = (1, 0) ∧
    a.bottomBar = "/" ++ a.search_buffer ++ " [1/0]" := by
  constructor
  · simp [App.searchResultsCounter, h2, h3]
  · simp only [App.bottomBar, h1, h2, h3, List.length_nil]
    rw [show toString ((0 : Nat) + 1) = "1" from rfl,
      show toString ((0 : Nat)) = "0" from rfl]
    simp only [String.append_assoc]
    congr 1

/-- C7 witness: the amended counter statement at a concrete empty-match
SearchResults state. -/
theorem c7_empty_matches_counter_witness :
    (App.mk .Fpu .SearchResults "qq" (SearchState.mk [] 0 "qq")
        (ScrollHints.mk 0 0 0) (ScrollHints.mk 0 0 0) [] [] []).searchResultsCounter
      = (1, 0) ∧
    (App.mk .Fpu .SearchResults "qq" (SearchState.mk [] 0 "qq")
        (ScrollHints.mk 0 0 0) (ScrollHints.mk 0 0 0) [] [] []).bottomBar
      = "/" ++ "qq" ++ " [1/0]" :=
  c7_empty_matches_counter
    (App.mk .Fpu .SearchResults "qq" (SearchState.mk [] 0 "qq")
      (ScrollHints.mk 0 0 0) (ScrollHints.mk 0 0 0) [] [] []) rfl rfl rfl

/-! ## Claim C8 -/

/-- C8 counterexample: with a TSC frequency of 199 Hz and a fully drained
one-shot counter, the derived LAPIC frequency is 854698491705 Hz and the
programmed reload value is `(freq / 100) as u32 = 4252017621` — the
truncating cast wraps past the register width instead of saturating at
`u32::MAX = 4294967295` as the claim's "clamped" requires. -/
theorem c8_reload_wraps_counterexample :
    (calibrate_with_tsc (LapicState.mk none) (some 199) 0).2.lapic_timer_freq_hz
      = some 854698491705 ∧
    (calibrate_with_tsc (LapicState.mk none) (some 199) 0).1 = some 4252017621 ∧
    4252017621 ≠ min (854698491705 / TARGET_TIMER_HZ) 4294967295 := by
  decide

/-- C8 (amended): every successful calibration (TSC- or PIT-referenced)
stores the derived frequency in the process-wide state and programs
`(calibrated_freq / TARGET_TIMER_HZ) % 2^32` — a wrapping truncation to
the register width, not a saturating clamp; a failed TSC path stores
nothing; and the `enable` chain falls back to `FALLBACK_TIMER_INITIAL`
when both calibration results are absent, while a TSC-path success makes
`enable` commit exactly that path's stored frequency. -/
theorem c8_timer_calibration :
    (∀ (st : LapicState) (tsc endCount reload : Nat) (st2 : LapicState),
        calibrate_with_tsc st (some tsc) endCount = (some reload, st2) →
        ∃ f, st2.lapic_timer_freq_hz = some f ∧
          reload = (f / TARGET_TIMER_HZ) % 4294967296) ∧
    (∀ (st : LapicState) (endCount reload : Nat) (st2 : LapicState),
        calibrate_with_pit st endCount = (some reload, st2) →
        ∃ f, st2.lapic_timer_freq_hz = some f ∧
          reload = (f / TARGET_TIMER_HZ) % 4294967296) ∧
    (∀ (st : LapicState) (e : Nat), calibrate_with_tsc st none e = (none, st)) ∧
    enable_reload_choice none none = FALLBACK_TIMER_INITIAL ∧
    (∀ (st : LapicState) (tsc tscEnd pitEnd : Nat),
        (Lapic.enable st (some tsc) tscEnd pitEnd).2.lapic_timer_freq_hz =
          (calibrate_with_tsc st (some tsc) tscEnd).2.lapic_timer_freq_hz) := by
  refine ⟨?_, ?_, ?_, rfl, ?_⟩
  · intro st tsc endCount reload st2 h
    simp only [calibrate_with_tsc, Prod.mk.injEq, Option.some.injEq] at h
    exact ⟨_, by rw [← h.2], h.1.symm⟩
  · intro st endCount reload st2 h
    simp only [calibrate_with_pit, Prod.mk.injEq, Option.some.injEq] at h
    exact ⟨_, by rw [← h.2], h.1.symm⟩
  · intro st e
    rfl
  · intro st tsc tscEnd pitEnd
    rfl

/-- C8 witness: both calibration paths applied to drained one-shot
counters — the TSC path at 199 Hz stores 854698491705 Hz, the PIT path
stores 429526248175 Hz, each programming the truncated
`freq / TARGET_TIMER_HZ`. -/
theorem c8_timer_calibration_witness :
    (∃ f, (LapicState.mk (some 854698491705)).lapic_timer_freq_hz = some f ∧
        4252017621 = (f / TARGET_TIMER_HZ) % 4294967296) ∧
    (∃ f, (LapicState.mk (some 429526248175)).lapic_timer_freq_hz = some f ∧
        295185 = (f / TARGET_TIMER_HZ) % 4294967296) :=
  ⟨c8_timer_calibration.1 (LapicState.mk none) 199 0 4252017621
      (LapicState.mk (some 854698491705)) (by decide),
   c8_timer_calibration.2.1 (LapicState.mk none) 0 295185
      (LapicState.mk (some 429526248175)) (by decide)⟩

/-! ## Claim C9 -/

/-- A cell that did not change contributes nothing in `paint_diff`. -/
theorem paintDiffStep_unchanged (prev next : BufferM)
    (acc : StyleM × List AnsiOut) (p : Nat × Nat)
    (h : next p.1 p.2 = prev p.1 p.2) :
    paintDiffStep prev next acc p = acc := by
  simp [paintDiffStep, h]

/-- Folding `paint_diff`'s step over unchanged cells is the identity. -/
theorem foldl_paintDiffStep_unchanged (prev next : BufferM)
    (l : List (Nat × Nat)) (h : ∀ p ∈ l, next p.1 p.2 = prev p.1 p.2) :
    ∀ acc, l.foldl (paintDiffStep prev next) acc = acc := by
  induction l with
  | nil => intro acc; rfl
  | cons p rest ih =>
      intro acc
      rw [List.foldl_cons,
        paintDiffStep_unchanged prev next acc p (h p (List.mem_cons_self p rest))]
      exact ih (fun q hq => h q (List.mem_cons_of_mem p hq)) acc

/-- Every position visited by the painters lies inside the area. -/
theorem mem_cellOrder {w h : Nat} {p : Nat × Nat} (hp : p ∈ cellOrder w h) :
    p.1 < w ∧ p.2 < h := by
  simp only [cellOrder, List.mem_flatMap, List.mem_map, List.mem_range] at hp
  obtain ⟨y, hy, x, hx, rfl⟩ := hp
  exact ⟨hx, hy⟩

/-- `paint_diff` between pointwise-equal frames emits only the
hide/reset/reset/show bracketing. -/
theorem paint_diff_no_change (w h : Nat) (prev next : BufferM)
    (hs : ∀ x y, x < w → y < h → next x y = prev x y) :
    paint_diff w h prev next =
      [AnsiOut.hideCursor, AnsiOut.reset, AnsiOut.reset, AnsiOut.showCursor] := by
  have hb : (cellOrder w h).foldl (paintDiffStep prev next)
      (StyleM.default, []) = (StyleM.default, []) :=
    foldl_paintDiffStep_unchanged prev next (cellOrder w h)
      (fun q hq => hs q.1 q.2 (mem_cellOrder hq).1 (mem_cellOrder hq).2) _
  simp [paint_diff, hb]

/-- C9: after a `draw` commits frame F, a second `draw` whose updates
leave the content identical to F takes the diff path and performs zero
cell writes — its output is exactly cursor-hide, style-reset,
style-reset, cursor-show, with no `goto`, SGR, or symbol bytes. -/
theorem c9_identical_redraw_writes_nothing (b : SerialAnsiBackend)
    (c1 c2 : List (Nat × Nat × CellM))
    (hsame : ∀ x y, x < b.width → y < b.height →
        applyUpdates ((b.draw c1).2) c2 x y = ((b.draw c1).2).prev x y) :
    (((b.draw c1).2).draw c2).1 =
      [AnsiOut.hideCursor, AnsiOut.reset, AnsiOut.reset, AnsiOut.showCursor] :=
  calc (((b.draw c1).2).draw c2).1
      = paint_diff b.width b.height ((b.draw c1).2).prev
          (applyUpdates ((b.draw c1).2) c2) := rfl
    _ = _ := paint_diff_no_change b.width b.height ((b.draw c1).2).prev
          (applyUpdates ((b.draw c1).2) c2) hsame

/-- C9 witness: on a fresh 2×2 backend, a first (full) draw followed by a
second draw with no updates emits only the four bracketing sequences. -/
theorem c9_identical_redraw_writes_nothing_witness :
    (((SerialAnsiBackend.new 2 2).draw []).2.draw []).1 =
      [AnsiOut.hideCursor, AnsiOut.reset, AnsiOut.reset, AnsiOut.showCursor] :=
  c9_identical_redraw_writes_nothing (SerialAnsiBackend.new 2 2) [] []
    (fun _ _ _ _ => rfl)

end CpuStateTui
